import Mathlib

/-!
Host ISA capability resolver: embedding and verification.

A shallow embedding of `cranelift/native/src/lib.rs`: the function
`builder_with_options(infer_native_flags: bool)` (and its wrapper `builder()`)
that looks up a code-generation backend for the host target triple and, per
compiled target architecture, checks a mandatory baseline and applies
hardware-probed optional capability flags to the returned `isa::Builder`.

The compile-time `cfg(target_arch = ...)` blocks are modelled by an `Arch`
field of the host state: exactly the block belonging to the host architecture
is compiled in, so exactly that branch of the embedding runs.  Hardware
probes (`is_x86_feature_detected!`, `is_aarch64_feature_detected!`,
`getauxval(AT_HWCAP)`) are fields of the host state.  The `unwrap()` in the
internal `set` helper is modelled by `Option`: `none` is a panic.
-/

namespace CraneliftNative

/-- The architecture families distinguished by the `cfg(target_arch = ...)`
blocks of `builder_with_options`.  `s390x` is paired with a separate
`os_linux` field of the host because its block additionally requires
`target_os = "linux"`.  Every remaining family is `other`. -/
inductive Arch where
  | x86
  | x86_64
  | aarch64
  | s390x
  | other
deriving DecidableEq, Repr

/-- The type `cranelift_codegen::isa::LookupError`: the two reasons the
backend lookup for a target triple can fail (matched on at the top of
`builder_with_options`). -/
inductive LookupError where
  | SupportDisabled
  | Unsupported
deriving DecidableEq, Repr

/-- The `isa::Builder` state the resolver observes: the architecture it was
looked up for and the ordered list of `(name, value)` settings applied to it
so far.  The builder returned by `isa::lookup` has no setting applied yet. -/
structure Builder where
  arch : Arch
  flags : List (String × Bool)
deriving DecidableEq, Repr

/-- The host state: everything outside the function that its result depends
on.  `lookupResult` is the outcome of `isa::lookup(Triple::host())`;
`detect f` is the hardware probe for feature string `f`
(`is_x86_feature_detected!(f)` / `is_aarch64_feature_detected!(f)`);
`hwcap` is `getauxval(AT_HWCAP)`; `mie2_actual` is the ground truth of the
s390x `mie2` extension, which the code has no probe for (see
`capabilityPresent`). -/
structure Host where
  arch : Arch
  os_linux : Bool
  lookupResult : Except LookupError Unit
  detect : String → Bool
  hwcap : Nat
  mie2_actual : Bool

/-- Modelled from the spec: the set of stable flag names the builder's
`Configurable::set` accepts, which the repository implements in
`cranelift_codegen::settings` (not among the given source files).  Per the
spec's capability-flag applier contract and architecture table, setting
succeeds exactly for the stable flag names of the host architecture's
table row. -/
def recognizedSettings : Arch → List String
  | Arch.x86 | Arch.x86_64 =>
      ["has_sse3", "has_ssse3", "has_sse41", "has_sse42", "has_popcnt",
       "has_avx", "has_avx2", "has_bmi1", "has_bmi2", "has_avx512bitalg",
       "has_avx512dq", "has_avx512f", "has_avx512vl", "has_avx512vbmi",
       "has_lzcnt"]
  | Arch.aarch64 => ["has_lse"]
  | Arch.s390x => ["has_vxrs_ext2", "has_mie2"]
  | Arch.other => []

/-- The builder's `set(name, value)` operation: `none` models the `SetError`
on an unrecognized name (which the resolver's helper unwraps); a recognized
setting is appended (values `"1"`/`"0"`, the resolver's convention). -/
def Builder.setRaw (b : Builder) (name : String) (value : String) :
    Option Builder :=
  if (recognizedSettings b.arch).contains name then
    some { b with flags := b.flags ++ [(name, value == "1")] }
  else
    none

/-- The helper `fn set(isa_builder, name, detected)` inside
`builder_with_options`: converts the detected bit to `"1"`/`"0"` and applies
it, unwrapping (`none` = panic). -/
def setFlag (b : Builder) (name : String) (detected : Bool) : Option Builder :=
  b.setRaw name (if detected then "1" else "0")

/-- The value a flag name has in a builder: the last setting applied under
that name, or the default `false` when none was (the defaults of every flag
in `recognizedSettings` are `false`). -/
def getFlag (b : Builder) (name : String) : Bool :=
  b.flags.foldl (fun acc p => if p.1 == name then p.2 else acc) false

/-- The error-message mapping applied to `isa::lookup`'s failure
(`map_err` at the top of `builder_with_options`). -/
def lookupErrorMessage : LookupError → String
  | LookupError.SupportDisabled => "support for architecture disabled at compile time"
  | LookupError.Unsupported => "unsupported architecture"

/-- The ordered sequence of `set` calls in the
`cfg(any(target_arch = "x86", target_arch = "x86_64"))` block, one
`(flag name, feature string probed)` pair per call. -/
def x86FlagProbes : List (String × String) :=
  [("has_sse3", "sse3"), ("has_ssse3", "ssse3"), ("has_sse41", "sse4.1"),
   ("has_sse42", "sse4.2"), ("has_popcnt", "popcnt"), ("has_avx", "avx"),
   ("has_avx2", "avx2"), ("has_bmi1", "bmi1"), ("has_bmi2", "bmi2"),
   ("has_avx512bitalg", "avx512bitalg"), ("has_avx512dq", "avx512dq"),
   ("has_avx512f", "avx512f"), ("has_avx512vl", "avx512vl"),
   ("has_avx512vbmi", "avx512vbmi"), ("has_lzcnt", "lzcnt")]

/-- Run a sequence of `set` calls, each setting the named flag to its own
probe's result, in order (the straight-line body of a detection block). -/
def applyProbes (host : Host) : List (String × String) → Builder →
    Option Builder
  | [], b => some b
  | (name, feature) :: rest, b =>
      match setFlag b name (host.detect feature) with
      | none => none
      | some b => applyProbes host rest b

/-- The `cfg(target_arch = ...)` block for `host.arch` (everything after the
lookup in `builder_with_options`): mandatory baseline check, early return
when `infer_native_flags` is false, then the architecture's `set` calls. -/
def archDetect (host : Host) (infer_native_flags : Bool)
    (isa_builder : Builder) : Option (Except String Builder) :=
  match host.arch with
  | Arch.x86 | Arch.x86_64 =>
    if !(host.detect "sse2") then
      some (Except.error "x86 support requires SSE2")
    else if !infer_native_flags then
      some (Except.ok isa_builder)
    else
      (applyProbes host x86FlagProbes isa_builder).map Except.ok
  | Arch.aarch64 =>
    if !infer_native_flags then
      some (Except.ok isa_builder)
    else
      (setFlag isa_builder "has_lse" (host.detect "lse")).map Except.ok
  | Arch.s390x =>
    if host.os_linux then
      if !infer_native_flags then
        some (Except.ok isa_builder)
      else
        let vxrs_ext2 : Bool := decide (host.hwcap &&& 32768 ≠ 0)
        ((setFlag isa_builder "has_vxrs_ext2" vxrs_ext2).bind
          (fun b => setFlag b "has_mie2" vxrs_ext2)).map Except.ok
    else
      some (Except.ok isa_builder)
  | Arch.other => some (Except.ok isa_builder)

/-- The public entry point `builder_with_options(infer_native_flags)`.  The
result is `none` when the internal `set` helper would panic, otherwise
`some (Except.error msg)` or `some (Except.ok builder)` exactly as the Rust
function returns. -/
def builder_with_options (host : Host) (infer_native_flags : Bool) :
    Option (Except String Builder) :=
  match host.lookupResult with
  | Except.error e => some (Except.error (lookupErrorMessage e))
  | Except.ok () =>
      archDetect host infer_native_flags { arch := host.arch, flags := [] }

/-- The public entry point `builder()`: delegates to
`builder_with_options(true)`. -/
def builder (host : Host) : Option (Except String Builder) :=
  builder_with_options host true

/-- Modelled from the spec: the ground truth of whether the host actually
possesses the capability a flag name stands for — a notion the spec's
invariant refers to but no source function computes.  The hardware probes
are authoritative for the capabilities they query, so for every probed flag
the ground truth is the probe result, and for `has_vxrs_ext2` it is the
documented `AT_HWCAP` bit 32768.  The `has_mie2` extension has no probe:
the spec states no independent detection primitive exists for it, so its
ground truth is the independent host field `mie2_actual`. -/
def capabilityPresent (host : Host) : String → Bool
  | "has_sse3" => host.detect "sse3"
  | "has_ssse3" => host.detect "ssse3"
  | "has_sse41" => host.detect "sse4.1"
  | "has_sse42" => host.detect "sse4.2"
  | "has_popcnt" => host.detect "popcnt"
  | "has_avx" => host.detect "avx"
  | "has_avx2" => host.detect "avx2"
  | "has_bmi1" => host.detect "bmi1"
  | "has_bmi2" => host.detect "bmi2"
  | "has_avx512bitalg" => host.detect "avx512bitalg"
  | "has_avx512dq" => host.detect "avx512dq"
  | "has_avx512f" => host.detect "avx512f"
  | "has_avx512vl" => host.detect "avx512vl"
  | "has_avx512vbmi" => host.detect "avx512vbmi"
  | "has_lzcnt" => host.detect "lzcnt"
  | "has_lse" => host.detect "lse"
  | "has_vxrs_ext2" => decide (host.hwcap &&& 32768 ≠ 0)
  | "has_mie2" => host.mie2_actual
  | _ => false

/-! Concrete host states used as witnesses and counterexamples. -/

/-- An x86-64 host with a backend compiled in whose probes all report absent,
so in particular the mandatory SSE2 baseline is missing. -/
def hostX86NoSse2 : Host :=
  { arch := Arch.x86_64, os_linux := false, lookupResult := Except.ok (),
    detect := fun _ => false, hwcap := 0, mie2_actual := false }

/-- A host whose architecture family has no backend at all: the lookup
reports it unsupported. -/
def hostUnsupported : Host :=
  { arch := Arch.other, os_linux := false,
    lookupResult := Except.error LookupError.Unsupported,
    detect := fun _ => false, hwcap := 0, mie2_actual := false }

/-- A 64-bit ARM host whose probes all report present, used to exercise the
skip mode. -/
def hostSkip : Host :=
  { arch := Arch.aarch64, os_linux := true, lookupResult := Except.ok (),
    detect := fun _ => true, hwcap := 0, mie2_actual := true }

/-- The 64-bit x86 host of the end-to-end scenario: probes report sse2, avx2
and lzcnt present and everything else absent. -/
def host6 : Host :=
  { arch := Arch.x86_64, os_linux := false, lookupResult := Except.ok (),
    detect := fun f => f == "sse2" || f == "avx2" || f == "lzcnt",
    hwcap := 0, mie2_actual := false }

/-- The builder the resolver produces on `host6`. -/
def builder6 : Builder :=
  { arch := Arch.x86_64,
    flags := [("has_sse3", false), ("has_ssse3", false), ("has_sse41", false),
              ("has_sse42", false), ("has_popcnt", false), ("has_avx", false),
              ("has_avx2", true), ("has_bmi1", false), ("has_bmi2", false),
              ("has_avx512bitalg", false), ("has_avx512dq", false),
              ("has_avx512f", false), ("has_avx512vl", false),
              ("has_avx512vbmi", false), ("has_lzcnt", true)] }

/-- A 64-bit ARM host whose probes report every extension absent, in
particular the lse atomic extension. -/
def hostLseAbsent : Host :=
  { arch := Arch.aarch64, os_linux := false, lookupResult := Except.ok (),
    detect := fun _ => false, hwcap := 0, mie2_actual := false }

/-- An s390x Linux host whose capability vector reports no bits set. -/
def hostS390x : Host :=
  { arch := Arch.s390x, os_linux := true, lookupResult := Except.ok (),
    detect := fun _ => false, hwcap := 0, mie2_actual := false }

/-- A 32-bit x86 host whose probes report only the sse2 baseline present. -/
def hostX86Probe : Host :=
  { arch := Arch.x86, os_linux := false, lookupResult := Except.ok (),
    detect := fun f => f == "sse2", hwcap := 0, mie2_actual := false }

/-- An s390x Linux host whose capability vector reports the vxrs_ext2 bit
but which does not actually possess the mie2 extension — the hardware state
the spec's empirical assumption declares not to occur in deployed chips. -/
def hostCx : Host :=
  { arch := Arch.s390x, os_linux := true, lookupResult := Except.ok (),
    detect := fun _ => false, hwcap := 32768, mie2_actual := false }

/-- The builder the resolver produces on `hostCx`. -/
def builderCx : Builder :=
  { arch := Arch.s390x,
    flags := [("has_vxrs_ext2", true), ("has_mie2", true)] }

/-- An x86-64 host whose probes report sse2 and avx2 present and everything
else absent. -/
def hostNf : Host :=
  { arch := Arch.x86_64, os_linux := false, lookupResult := Except.ok (),
    detect := fun f => f == "sse2" || f == "avx2",
    hwcap := 0, mie2_actual := false }

/-- The builder the resolver produces on `hostNf`. -/
def builderNf : Builder :=
  { arch := Arch.x86_64,
    flags := [("has_sse3", false), ("has_ssse3", false), ("has_sse41", false),
              ("has_sse42", false), ("has_popcnt", false), ("has_avx", false),
              ("has_avx2", true), ("has_bmi1", false), ("has_bmi2", false),
              ("has_avx512bitalg", false), ("has_avx512dq", false),
              ("has_avx512f", false), ("has_avx512vl", false),
              ("has_avx512vbmi", false), ("has_lzcnt", false)] }

/-! Reduction lemmas. -/

theorem setFlag_eq_some (b : Builder) (name : String) (d : Bool)
    (hmem : name ∈ recognizedSettings b.arch) :
    setFlag b name d = some { b with flags := b.flags ++ [(name, d)] } := by
  cases d <;> simp [setFlag, Builder.setRaw, hmem]

theorem applyProbes_eq (host : Host) (probes : List (String × String)) :
    ∀ b : Builder,
      (∀ p ∈ probes, p.1 ∈ recognizedSettings b.arch) →
      applyProbes host probes b =
        some { b with
               flags := b.flags ++ probes.map (fun p => (p.1, host.detect p.2)) } := by
  induction probes with
  | nil => intro b _; simp [applyProbes]
  | cons p rest ih =>
      intro b hmem
      obtain ⟨name, feature⟩ := p
      rw [applyProbes,
          setFlag_eq_some b name (host.detect feature)
            (hmem (name, feature) (List.mem_cons_self _ _))]
      show applyProbes host rest
          { arch := b.arch, flags := b.flags ++ [(name, host.detect feature)] } = _
      rw [ih { arch := b.arch, flags := b.flags ++ [(name, host.detect feature)] }
            (fun q hq => hmem q (List.mem_cons_of_mem _ hq))]
      simp

theorem x86FlagProbes_recognized_x86 :
    ∀ p ∈ x86FlagProbes, p.1 ∈ recognizedSettings Arch.x86 := by decide

theorem x86FlagProbes_recognized_x86_64 :
    ∀ p ∈ x86FlagProbes, p.1 ∈ recognizedSettings Arch.x86_64 := by decide

theorem bwo_x86_full (h : Host)
    (harch : h.arch = Arch.x86 ∨ h.arch = Arch.x86_64)
    (hok : h.lookupResult = Except.ok ())
    (hsse2 : h.detect "sse2" = true) :
    builder_with_options h true =
      some (Except.ok
        { arch := h.arch,
          flags := x86FlagProbes.map (fun p => (p.1, h.detect p.2)) }) := by
  simp only [builder_with_options, hok]
  rcases harch with harch | harch
  · simp only [archDetect, harch, hsse2, Bool.not_true, Bool.false_eq_true,
      if_false]
    rw [applyProbes_eq h x86FlagProbes _ x86FlagProbes_recognized_x86]
    simp
  · simp only [archDetect, harch, hsse2, Bool.not_true, Bool.false_eq_true,
      if_false]
    rw [applyProbes_eq h x86FlagProbes _ x86FlagProbes_recognized_x86_64]
    simp

theorem bwo_error (h : Host) (infer : Bool) (e : LookupError)
    (he : h.lookupResult = Except.error e) :
    builder_with_options h infer =
      some (Except.error (lookupErrorMessage e)) := by
  simp [builder_with_options, he]

theorem bwo_x86_nosse2 (h : Host) (infer : Bool)
    (harch : h.arch = Arch.x86 ∨ h.arch = Arch.x86_64)
    (hok : h.lookupResult = Except.ok ())
    (hsse2 : h.detect "sse2" = false) :
    builder_with_options h infer =
      some (Except.error "x86 support requires SSE2") := by
  simp only [builder_with_options, hok]
  rcases harch with harch | harch <;> simp [archDetect, harch, hsse2]

theorem bwo_skip (h : Host)
    (hok : h.lookupResult = Except.ok ())
    (hbase : h.arch = Arch.x86 ∨ h.arch = Arch.x86_64 → h.detect "sse2" = true) :
    builder_with_options h false =
      some (Except.ok { arch := h.arch, flags := [] }) := by
  simp only [builder_with_options, hok]
  cases harch : h.arch
  case x86 => simp [archDetect, harch, hbase (Or.inl harch)]
  case x86_64 => simp [archDetect, harch, hbase (Or.inr harch)]
  case aarch64 => simp [archDetect, harch]
  case s390x => cases hlin : h.os_linux <;> simp [archDetect, harch, hlin]
  case other => simp [archDetect, harch]

theorem bwo_aarch64_full (h : Host)
    (harch : h.arch = Arch.aarch64)
    (hok : h.lookupResult = Except.ok ()) :
    builder_with_options h true =
      some (Except.ok
        { arch := Arch.aarch64, flags := [("has_lse", h.detect "lse")] }) := by
  simp only [builder_with_options, hok]
  rw [show (⟨h.arch, []⟩ : Builder) = ⟨Arch.aarch64, []⟩ by rw [harch]]
  simp only [archDetect, harch]
  rw [setFlag_eq_some { arch := Arch.aarch64, flags := [] } "has_lse"
      (h.detect "lse") (by decide)]
  simp

theorem bwo_s390x_full (h : Host)
    (harch : h.arch = Arch.s390x)
    (hlin : h.os_linux = true)
    (hok : h.lookupResult = Except.ok ()) :
    builder_with_options h true =
      some (Except.ok
        { arch := Arch.s390x,
          flags := [("has_vxrs_ext2", decide (h.hwcap &&& 32768 ≠ 0)),
                    ("has_mie2", decide (h.hwcap &&& 32768 ≠ 0))] }) := by
  simp only [builder_with_options, hok]
  rw [show (⟨h.arch, []⟩ : Builder) = ⟨Arch.s390x, []⟩ by rw [harch]]
  simp only [archDetect, harch, hlin, Bool.not_true, Bool.false_eq_true,
    if_false, if_true]
  rw [setFlag_eq_some { arch := Arch.s390x, flags := [] } "has_vxrs_ext2"
      (decide (h.hwcap &&& 32768 ≠ 0)) (by decide)]
  simp only [Option.some_bind]
  rw [setFlag_eq_some _ "has_mie2" (decide (h.hwcap &&& 32768 ≠ 0))
      (by simp [recognizedSettings])]
  simp

theorem bwo_s390x_nonlinux (h : Host) (infer : Bool)
    (harch : h.arch = Arch.s390x)
    (hlin : h.os_linux = false)
    (hok : h.lookupResult = Except.ok ()) :
    builder_with_options h infer =
      some (Except.ok { arch := Arch.s390x, flags := [] }) := by
  simp [builder_with_options, hok, archDetect, harch, hlin]

theorem bwo_other (h : Host) (infer : Bool)
    (harch : h.arch = Arch.other)
    (hok : h.lookupResult = Except.ok ()) :
    builder_with_options h infer =
      some (Except.ok { arch := Arch.other, flags := [] }) := by
  simp [builder_with_options, hok, archDetect, harch]

theorem foldl_lastwins_true (name : String) :
    ∀ (l : List (String × Bool)) (acc : Bool),
      l.foldl (fun acc p => if p.1 == name then p.2 else acc) acc = true →
      acc = true ∨ (name, true) ∈ l := by
  intro l
  induction l with
  | nil => intro acc hacc; exact Or.inl hacc
  | cons p rest ih =>
    intro acc hacc
    rw [List.foldl_cons] at hacc
    rcases ih _ hacc with hstep | hmem
    · by_cases hc : (p.1 == name) = true
      · right
        rw [if_pos hc] at hstep
        obtain ⟨p1, p2⟩ := p
        simp only [beq_iff_eq] at hc
        subst hc
        subst hstep
        exact List.mem_cons_self _ _
      · rw [if_neg hc] at hstep
        exact Or.inl hstep
    · exact Or.inr (List.mem_cons_of_mem _ hmem)

theorem getFlag_true_mem (b : Builder) (name : String)
    (h : getFlag b name = true) : (name, true) ∈ b.flags := by
  rcases foldl_lastwins_true name b.flags false h with hacc | hmem
  · cases hacc
  · exact hmem

/-! Claims. -/

/-- C3: for every host state, `builder()` returns exactly the same result as
`builder_with_options(true)` — the same failure in failing cases and a
builder with identical flag settings in succeeding cases. -/
theorem builder_equals_with_options_true :
    ∀ h : Host, builder h = builder_with_options h true :=
  fun _ => rfl

/-- C9: on every host state and in both detection modes, every `set` call the
resolver performs uses a recognized flag name, so the `unwrap` in the internal
`set` helper never panics (the embedding always returns a value, never the
`none` that models a panic). -/
theorem set_unwrap_never_panics :
    ∀ (h : Host) (infer : Bool), (builder_with_options h infer).isSome = true := by
  intro h infer
  rw [Option.isSome_iff_ne_none]
  simp only [builder_with_options]
  cases hres : h.lookupResult with
  | error e => simp
  | ok u =>
    cases u
    cases harch : h.arch <;> cases infer <;> cases hlin : h.os_linux <;>
      cases hsse2 : h.detect "sse2" <;>
      simp only [archDetect, harch, hlin, hsse2, Bool.not_true, Bool.not_false,
        if_true, if_false] <;>
      first
      | (simp
         done)
      | (rw [applyProbes_eq h x86FlagProbes _ x86FlagProbes_recognized_x86]
         simp
         done)
      | (rw [applyProbes_eq h x86FlagProbes _ x86FlagProbes_recognized_x86_64]
         simp
         done)
      | (rw [setFlag_eq_some { arch := Arch.aarch64, flags := [] } "has_lse"
            (h.detect "lse") (by decide)]
         simp
         done)
      | (simp only [Bool.false_eq_true, if_false]
         rw [setFlag_eq_some { arch := Arch.s390x, flags := [] } "has_vxrs_ext2"
            (decide (h.hwcap &&& 32768 ≠ 0)) (by decide)]
         simp only [Option.some_bind]
         rw [setFlag_eq_some _ "has_mie2" (decide (h.hwcap &&& 32768 ≠ 0))
            (by simp [recognizedSettings])]
         simp
         done)

/-- C2: on an x86 host with a backend whose mandatory SSE2 baseline probe
reports absent, `builder()`, `builder_with_options(true)` and
`builder_with_options(false)` all return the distinct baseline-missing error
"x86 support requires SSE2" — which no lookup failure maps to — and never a
builder; the baseline check runs regardless of `infer_native_flags`. -/
theorem baseline_gating (h : Host)
    (harch : h.arch = Arch.x86 ∨ h.arch = Arch.x86_64)
    (hok : h.lookupResult = Except.ok ())
    (hsse2 : h.detect "sse2" = false) :
    builder h = some (Except.error "x86 support requires SSE2") ∧
    builder_with_options h true =
      some (Except.error "x86 support requires SSE2") ∧
    builder_with_options h false =
      some (Except.error "x86 support requires SSE2") ∧
    lookupErrorMessage LookupError.SupportDisabled ≠
      "x86 support requires SSE2" ∧
    lookupErrorMessage LookupError.Unsupported ≠
      "x86 support requires SSE2" :=
  ⟨bwo_x86_nosse2 h true harch hok hsse2,
   bwo_x86_nosse2 h true harch hok hsse2,
   bwo_x86_nosse2 h false harch hok hsse2,
   by decide, by decide⟩

/-- Witness for C2 at a concrete x86-64 host with every probe absent. -/
theorem baseline_gating_witness :
    builder hostX86NoSse2 = some (Except.error "x86 support requires SSE2") :=
  (baseline_gating hostX86NoSse2 (Or.inr rfl) rfl rfl).1

/-- C4: a lookup failure maps one-to-one onto exactly two messages —
`SupportDisabled` to "support for architecture disabled at compile time" and
`Unsupported` to "unsupported architecture" — and a host whose architecture
is unrecognized never yields the baseline-missing failure. -/
theorem lookup_failure_mapping (h : Host) (infer : Bool) (e : LookupError)
    (he : h.lookupResult = Except.error e) :
    builder_with_options h infer =
      some (Except.error
        (match e with
         | LookupError.SupportDisabled =>
             "support for architecture disabled at compile time"
         | LookupError.Unsupported => "unsupported architecture")) ∧
    builder_with_options h infer ≠
      some (Except.error "x86 support requires SSE2") := by
  have h1 := bwo_error h infer e he
  cases e <;> exact ⟨h1, by rw [h1]; simp [lookupErrorMessage]⟩

/-- Witness for C4 at a concrete host with an unrecognized architecture. -/
theorem lookup_failure_mapping_witness :
    builder_with_options hostUnsupported true =
      some (Except.error "unsupported architecture") :=
  (lookup_failure_mapping hostUnsupported true LookupError.Unsupported rfl).1

/-- C5: on every host whose mandatory baseline is satisfied,
`builder_with_options(false)` returns the builder exactly as the backend
lookup produced it — no setting applied on any architecture. -/
theorem skip_mode_no_flags (h : Host)
    (hok : h.lookupResult = Except.ok ())
    (hbase : h.arch = Arch.x86 ∨ h.arch = Arch.x86_64 →
      h.detect "sse2" = true) :
    builder_with_options h false =
      some (Except.ok { arch := h.arch, flags := [] }) :=
  bwo_skip h hok hbase

/-- Witness for C5 at a concrete 64-bit ARM host. -/
theorem skip_mode_no_flags_witness :
    builder_with_options hostSkip false =
      some (Except.ok { arch := Arch.aarch64, flags := [] }) :=
  skip_mode_no_flags hostSkip rfl (fun _ => rfl)

/-- C6: on a 64-bit x86 host whose probes report sse2, avx2 and lzcnt
present and avx512f (and everything else) absent, `builder()` succeeds with
`has_avx2` and `has_lzcnt` true, `has_avx512f` false, and every flag not
named in the scenario at its default of false. -/
theorem x86_end_to_end :
    builder host6 = some (Except.ok builder6) ∧
    getFlag builder6 "has_avx2" = true ∧
    getFlag builder6 "has_avx512f" = false ∧
    getFlag builder6 "has_lzcnt" = true ∧
    ∀ name : String, name ≠ "has_avx2" → name ≠ "has_lzcnt" →
      getFlag builder6 name = false := by
  refine ⟨rfl, rfl, rfl, rfl, ?_⟩
  intro name h2 hl
  cases hgf : getFlag builder6 name with
  | false => rfl
  | true =>
    have hmem := getFlag_true_mem _ _ hgf
    simp [builder6] at hmem
    cases hmem with
    | inl h => exact absurd h h2
    | inr h => exact absurd h hl

/-- Witness for C6's universally quantified part at a concrete flag name. -/
theorem x86_end_to_end_witness :
    getFlag builder6 "has_sse41" = false :=
  x86_end_to_end.2.2.2.2 "has_sse41" (by decide) (by decide)

/-- C7: on a 64-bit ARM host with a backend registered, `builder()` performs
no mandatory-baseline check and succeeds for every probe outcome, applying
exactly one setting, `has_lse`, equal to the lse probe's result. -/
theorem aarch64_lse_only (h : Host)
    (harch : h.arch = Arch.aarch64)
    (hok : h.lookupResult = Except.ok ()) :
    builder h =
      some (Except.ok
        { arch := Arch.aarch64, flags := [("has_lse", h.detect "lse")] }) ∧
    getFlag { arch := Arch.aarch64, flags := [("has_lse", h.detect "lse")] }
      "has_lse" = h.detect "lse" :=
  ⟨bwo_aarch64_full h harch hok, by simp [getFlag]⟩

/-- Witness for C7 at a concrete ARM host with the lse extension absent:
the call still succeeds and `has_lse` is false. -/
theorem aarch64_lse_only_witness :
    builder hostLseAbsent =
      some (Except.ok
        { arch := Arch.aarch64, flags := [("has_lse", false)] }) :=
  (aarch64_lse_only hostLseAbsent rfl rfl).1

/-- C8: on an s390x Linux host with inference enabled, `has_vxrs_ext2` is
set to the result of testing bit 32768 of the AT_HWCAP vector, and
`has_mie2` always equals `has_vxrs_ext2` in the returned builder, for every
possible hardware state. -/
theorem s390x_mie2_piggyback (h : Host)
    (harch : h.arch = Arch.s390x)
    (hlin : h.os_linux = true)
    (hok : h.lookupResult = Except.ok ()) :
    ∃ b : Builder, builder h = some (Except.ok b) ∧
      getFlag b "has_vxrs_ext2" = decide (h.hwcap &&& 32768 ≠ 0) ∧
      getFlag b "has_mie2" = getFlag b "has_vxrs_ext2" := by
  refine ⟨_, bwo_s390x_full h harch hlin hok, ?_, ?_⟩ <;> simp [getFlag]

/-- Witness for C8 at a concrete s390x Linux host with an empty capability
vector. -/
theorem s390x_mie2_piggyback_witness :
    ∃ b : Builder, builder hostS390x = some (Except.ok b) ∧
      getFlag b "has_vxrs_ext2" = decide (hostS390x.hwcap &&& 32768 ≠ 0) ∧
      getFlag b "has_mie2" = getFlag b "has_vxrs_ext2" :=
  s390x_mie2_piggyback hostS390x rfl rfl rfl

/-- C10: on an x86 or x86-64 host with SSE2 present and inference enabled,
the resolver applies exactly the fifteen optional flags below, in this
order, each to the result of its own probe, and applies nothing else. -/
theorem x86_full_inference (h : Host)
    (harch : h.arch = Arch.x86 ∨ h.arch = Arch.x86_64)
    (hok : h.lookupResult = Except.ok ())
    (hsse2 : h.detect "sse2" = true) :
    builder_with_options h true =
      some (Except.ok
        { arch := h.arch,
          flags := [("has_sse3", h.detect "sse3"),
                    ("has_ssse3", h.detect "ssse3"),
                    ("has_sse41", h.detect "sse4.1"),
                    ("has_sse42", h.detect "sse4.2"),
                    ("has_popcnt", h.detect "popcnt"),
                    ("has_avx", h.detect "avx"),
                    ("has_avx2", h.detect "avx2"),
                    ("has_bmi1", h.detect "bmi1"),
                    ("has_bmi2", h.detect "bmi2"),
                    ("has_avx512bitalg", h.detect "avx512bitalg"),
                    ("has_avx512dq", h.detect "avx512dq"),
                    ("has_avx512f", h.detect "avx512f"),
                    ("has_avx512vl", h.detect "avx512vl"),
                    ("has_avx512vbmi", h.detect "avx512vbmi"),
                    ("has_lzcnt", h.detect "lzcnt")] }) :=
  bwo_x86_full h harch hok hsse2

/-- Witness for C10 at a concrete x86 host with only the baseline present. -/
theorem x86_full_inference_witness :
    builder_with_options hostX86Probe true =
      some (Except.ok
        { arch := Arch.x86,
          flags := [("has_sse3", false), ("has_ssse3", false),
                    ("has_sse41", false), ("has_sse42", false),
                    ("has_popcnt", false), ("has_avx", false),
                    ("has_avx2", false), ("has_bmi1", false),
                    ("has_bmi2", false), ("has_avx512bitalg", false),
                    ("has_avx512dq", false), ("has_avx512f", false),
                    ("has_avx512vl", false), ("has_avx512vbmi", false),
                    ("has_lzcnt", false)] }) :=
  x86_full_inference hostX86Probe (Or.inl rfl) rfl rfl

/-- C1 (counterexample): on an s390x Linux host whose AT_HWCAP reports
vxrs_ext2 but which does not actually possess mie2, `builder()` returns a
builder with `has_mie2` set to true — a flag enabled for a capability the
host does not possess, so the claim as stated is false. -/
theorem no_false_claims_counterexample :
    builder hostCx = some (Except.ok builderCx) ∧
    getFlag builderCx "has_mie2" = true ∧
    capabilityPresent hostCx "has_mie2" = false :=
  ⟨rfl, rfl, rfl⟩

/-- C1 (amended): every capability flag `builder_with_options(true)` (and
hence `builder()`) sets to enabled is actually present on the host, provided
the spec's empirical assumption holds — a host whose AT_HWCAP reports
vxrs_ext2 also possesses mie2 (the `has_mie2` flag has no probe of its own
and piggybacks on the vxrs_ext2 bit). -/
theorem no_false_capability_claims (h : Host) (b : Builder) (name : String)
    (hemp : decide (h.hwcap &&& 32768 ≠ 0) = true → h.mie2_actual = true)
    (hres : builder_with_options h true = some (Except.ok b))
    (hflag : getFlag b name = true) :
    capabilityPresent h name = true := by
  have hmem := getFlag_true_mem b name hflag
  cases hok : h.lookupResult with
  | error e =>
    rw [bwo_error h true e hok] at hres
    exact absurd hres (by simp)
  | ok u =>
    cases u
    cases harch : h.arch
    case other =>
      rw [bwo_other h true harch hok] at hres
      simp only [Option.some.injEq, Except.ok.injEq] at hres
      subst hres
      simp at hmem
    case x86 =>
      cases hsse2 : h.detect "sse2" with
      | false =>
        rw [bwo_x86_nosse2 h true (Or.inl harch) hok hsse2] at hres
        exact absurd hres (by simp)
      | true =>
        rw [bwo_x86_full h (Or.inl harch) hok hsse2] at hres
        simp only [Option.some.injEq, Except.ok.injEq] at hres
        subst hres
        obtain ⟨⟨n, f⟩, hp, hpe⟩ := List.mem_map.mp hmem
        simp only [Prod.mk.injEq] at hpe
        obtain ⟨rfl, hdet⟩ := hpe
        fin_cases hp <;> exact hdet
    case x86_64 =>
      cases hsse2 : h.detect "sse2" with
      | false =>
        rw [bwo_x86_nosse2 h true (Or.inr harch) hok hsse2] at hres
        exact absurd hres (by simp)
      | true =>
        rw [bwo_x86_full h (Or.inr harch) hok hsse2] at hres
        simp only [Option.some.injEq, Except.ok.injEq] at hres
        subst hres
        obtain ⟨⟨n, f⟩, hp, hpe⟩ := List.mem_map.mp hmem
        simp only [Prod.mk.injEq] at hpe
        obtain ⟨rfl, hdet⟩ := hpe
        fin_cases hp <;> exact hdet
    case aarch64 =>
      rw [bwo_aarch64_full h harch hok] at hres
      simp only [Option.some.injEq, Except.ok.injEq] at hres
      subst hres
      simp only [List.mem_singleton, Prod.mk.injEq] at hmem
      obtain ⟨rfl, hdet⟩ := hmem
      exact hdet.symm
    case s390x =>
      cases hlin : h.os_linux with
      | false =>
        rw [bwo_s390x_nonlinux h true harch hlin hok] at hres
        simp only [Option.some.injEq, Except.ok.injEq] at hres
        subst hres
        simp at hmem
      | true =>
        rw [bwo_s390x_full h harch hlin hok] at hres
        simp only [Option.some.injEq, Except.ok.injEq] at hres
        subst hres
        simp only [List.mem_cons, List.mem_singleton, Prod.mk.injEq,
          List.not_mem_nil, or_false] at hmem
        rcases hmem with ⟨rfl, hd⟩ | ⟨rfl, hd⟩
        · exact hd.symm
        · exact hemp hd.symm

/-- Witness for C1's amended theorem at a concrete x86-64 host where avx2 is
probed present. -/
theorem no_false_capability_claims_witness :
    capabilityPresent hostNf "has_avx2" = true :=
  no_false_capability_claims hostNf builderNf "has_avx2" (by decide) rfl rfl

end CraneliftNative
